import Mathlib

/-!
Shallow embedding of the session and connectivity core of the
homebridge-phyn plugin (src/settings.ts constants, src/utils.ts,
src/api/mqttClient.ts, src/api/phynApi.ts, src/accessory/pp.ts).

Numbers that the source handles as JavaScript numbers are embedded as
Nat where they are non-negative integers (attempt counters, millisecond
delays) and as Rat where fractional values occur (temperatures, flow
rates, token expiry timestamps in seconds).  Strings stay String; device
identifiers and topics are additionally mirrored as List Char where
induction over their characters is needed.  Asynchronous effects
(timers, broker subscribe requests, log lines, event emission) are made
explicit as effect lists returned next to the successor state.
-/

namespace Phyn

/-- Constants from src/settings.ts. -/
def MQTT_TOPIC_PREFIX : String := "prd/app_subscriptions"

def DEFAULT_POLLING_INTERVAL : Nat := 60

def FIRMWARE_POLL_EVERY_N_CYCLES : Nat := 60

def AUTH_RETRY_ATTEMPTS : Nat := 3

def AUTH_RETRY_DELAY_MS : Nat := 5000

def MQTT_RECONNECT_BASE_MS : Nat := 2000

def MQTT_RECONNECT_MAX_MS : Nat := 60000

def MQTT_RECONNECT_MAX_ATTEMPTS : Nat := 20

def TOKEN_REFRESH_BUFFER_SECS : Nat := 60

/-- src/utils.ts `mqttBackoffDelay`: `Math.min(baseMs * Math.pow(2, attempt), maxMs)`. -/
def mqttBackoffDelay (attempt baseMs maxMs : Nat) : Nat :=
  min (baseMs * 2 ^ attempt) maxMs

/-- src/utils.ts `fahrenheitToCelsius`:
`Math.round(((f - 32) * 5) / 9 * 10) / 10`.  `Math.round` rounds half
towards positive infinity, as does Mathlib's `round`. -/
def fahrenheitToCelsius (f : Rat) : Rat :=
  (round ((f - 32) * 5 / 9 * 10) : Int) / 10

/-! ## Device state and push payload shapes (src/types.ts) -/

/-- src/types.ts `PhynValueField`: `{v?, mean?, ts?}`. -/
structure PhynValueField where
  v : Option Rat
  mean : Option Rat
  ts : Option Rat
deriving DecidableEq, Repr

/-- The `{ v: string }` envelope used by `sov_status` and `online_status`. -/
structure StrV where
  v : String
deriving DecidableEq, Repr

/-- src/types.ts `PhynDeviceState.alerts`. -/
structure PhynAlerts where
  is_leak : Option Bool
deriving DecidableEq, Repr

/-- src/types.ts `PhynDeviceState`.  Optional members of the TypeScript
interface become Option fields; `sov_status` is also Option because the
accessory reads it with optional chaining (`state.sov_status?.v`). -/
structure PhynDeviceState where
  device_id : Option String
  sov_status : Option StrV
  flow : Option PhynValueField
  pressure : Option PhynValueField
  temperature : Option PhynValueField
  online_status : Option StrV
  fw_version : Option String
  serial_number : Option String
  product_code : Option String
  pressure1 : Option PhynValueField
  pressure2 : Option PhynValueField
  temperature1 : Option PhynValueField
  temperature2 : Option PhynValueField
  alerts : Option PhynAlerts
deriving DecidableEq, Repr

/-- src/types.ts `PhynMqttPayload.sensor_data`. -/
structure PhynSensorData where
  pressure : Option PhynValueField
  temperature : Option PhynValueField
deriving DecidableEq, Repr

/-- The `{ v: number }` envelope used by `consumption`. -/
structure RatV where
  v : Rat
deriving DecidableEq, Repr

/-- src/types.ts `PhynMqttPayload`. -/
structure PhynMqttPayload where
  device_id : Option String
  sov_state : Option String
  flow : Option PhynValueField
  sensor_data : Option PhynSensorData
  consumption : Option RatV
  flow_state : Option StrV
deriving DecidableEq, Repr

/-! ## MqttClient (src/api/mqttClient.ts) -/

/-- Observable side effects of the push client. -/
inductive MqttEffect where
  | logInfo (msg : String)
  | logWarn (msg : String)
  | logError (msg : String)
  | scheduleTimer (delayMs : Nat)
  | brokerSubscribe (topic : String)
  | transportEnd
  | emitMessage (deviceId : String) (payload : PhynMqttPayload)
deriving DecidableEq, Repr

/-- Mutable fields of the `MqttClient` class.  `client` records whether
`this.client` is non-null; the Subscription Set is a duplicate-free list
mirroring the JavaScript `Set<string>`. -/
structure MqttState where
  client : Bool
  subscriptions : List String
  reconnectAttempts : Nat
  wsUrl : String
deriving DecidableEq, Repr

/-- JavaScript `Set.add`: a Set ignores re-insertion of an element. -/
def setAdd (l : List String) (x : String) : List String :=
  if x ∈ l then l else l ++ [x]

/-- src/api/mqttClient.ts `subscribe(deviceId)`: build the topic from
the fixed topic root, add it to the Subscription Set, and if a client
exists send a broker subscribe request. -/
def MqttClient.subscribe (s : MqttState) (deviceId : String) :
    MqttState × List MqttEffect :=
  let topic := MQTT_TOPIC_PREFIX ++ "/" ++ deviceId
  let s1 := { s with subscriptions := setAdd s.subscriptions topic }
  if s1.client then (s1, [MqttEffect.brokerSubscribe topic]) else (s1, [])

/-- src/api/mqttClient.ts `disconnect()`: `if (this.client) { this.client.end(); this.client = null; }`. -/
def MqttClient.disconnect (s : MqttState) : MqttState × List MqttEffect :=
  if s.client then ({ s with client := false }, [MqttEffect.transportEnd])
  else (s, [])

/-- Last segment of a '/'-separated topic, over characters:
JavaScript `topic.split('/')` then `parts[parts.length - 1]`. -/
def splitOnSlash : List Char → List (List Char)
  | [] => [[]]
  | c :: cs =>
    let rest := splitOnSlash cs
    if c = '/' then [] :: rest
    else
      match rest with
      | r :: rs => (c :: r) :: rs
      | [] => [[c]]

/-- The element `parts[parts.length - 1]` of `topic.split('/')`. -/
def lastTopicPart (topic : List Char) : List Char :=
  (splitOnSlash topic).getLastD []

/-- src/api/mqttClient.ts private `onMessage(topic, message)`:
extract the device id as the last '/'-separated topic segment; attempt
`JSON.parse` on the payload (embedded as the already-computed Option
result); on success emit a message event, on failure log a warning and
drop the message.  The client state is not touched either way. -/
def MqttClient.onMessage (s : MqttState) (topic : List Char)
    (parsed : Option PhynMqttPayload) : MqttState × List MqttEffect :=
  let deviceId := String.mk (lastTopicPart topic)
  match parsed with
  | some payload => (s, [MqttEffect.emitMessage deviceId payload])
  | none =>
      (s, [MqttEffect.logWarn
        ("Failed to parse MQTT message on topic " ++ String.mk topic)])

/-- src/api/mqttClient.ts private `scheduleReconnect(wsUrl)` up to the
`setTimeout` call: give up with an error log once the attempt ceiling is
reached, else compute the backoff delay from the current counter,
increment the counter, and schedule the timer.  The third component
reports the scheduled delay (`none` when the client gave up). -/
def MqttClient.scheduleReconnect (s : MqttState) :
    MqttState × List MqttEffect × Option Nat :=
  if s.reconnectAttempts ≥ MQTT_RECONNECT_MAX_ATTEMPTS then
    (s, [MqttEffect.logError
      ("MQTT reconnect failed after " ++ toString MQTT_RECONNECT_MAX_ATTEMPTS
        ++ " attempts")], none)
  else
    let delay := mqttBackoffDelay s.reconnectAttempts MQTT_RECONNECT_BASE_MS
      MQTT_RECONNECT_MAX_MS
    let s1 := { s with reconnectAttempts := s.reconnectAttempts + 1 }
    (s1,
      [MqttEffect.logInfo
        ("MQTT reconnecting in " ++ toString delay ++ "ms (attempt "
          ++ toString s1.reconnectAttempts ++ ")"),
        MqttEffect.scheduleTimer delay],
      some delay)

/-- Body of the reconnect timer when `connect` succeeds
(src/api/mqttClient.ts lines inside `setTimeout`): `connect` recreates
the client, every topic of the Subscription Set is sent to the broker
and logged, then `reconnectAttempts` is reset to 0. -/
def MqttClient.reconnectTimerSuccess (s : MqttState) :
    MqttState × List MqttEffect :=
  let s1 := { s with client := true }
  let effs := s1.subscriptions.flatMap (fun t =>
    [MqttEffect.brokerSubscribe t, MqttEffect.logInfo ("Re-subscribed to " ++ t)])
  ({ s1 with reconnectAttempts := 0 }, effs)

/-- The `close` handler wired in `connect` (src/api/mqttClient.ts):
log a warning and call `scheduleReconnect` — unconditionally, with no
flag distinguishing an owner-requested `disconnect()` from a dropped
connection. -/
def MqttClient.onClose (s : MqttState) : MqttState × List MqttEffect :=
  let r := MqttClient.scheduleReconnect s
  (r.1, MqttEffect.logWarn "MQTT connection closed, scheduling reconnect" :: r.2.1)

/-- A reconnect sequence in which every scheduled connect attempt fails:
each scheduled timer fires, the connect attempt fails, and the failure
path calls `scheduleReconnect` again, for up to `n` rounds.  Returns the
final state and the number of reconnect attempts actually scheduled. -/
def runFailingReconnects : Nat → MqttState → MqttState × Nat
  | 0, s => (s, 0)
  | n + 1, s =>
    match MqttClient.scheduleReconnect s with
    | (s1, _, some _) =>
        let r := runFailingReconnects n s1
        (r.1, r.2 + 1)
    | (s1, _, none) => (s1, 0)

/-! ## PhynApi (src/api/phynApi.ts) -/

/-- Outcome of one `cognitoUser.authenticateUser` round trip:
either a session (with its two JWTs and the access-token expiration,
in seconds) or the rejecting error's `name` and `message`. -/
inductive CognitoOutcome where
  | success (accessJwt idJwt : String) (expiration : Rat)
  | failure (name msg : String)
deriving DecidableEq, Repr

/-- Mutable fields of the `PhynApi` class that the session logic
touches.  `cognitoUser` records whether `this.cognitoUser` is
non-null. -/
structure ApiState where
  accessToken : Option String
  idToken : Option String
  tokenExpiresAt : Rat
  cognitoUser : Bool
deriving DecidableEq, Repr

/-- Result of `authenticate` / other session operations. -/
inductive AuthResult where
  | ok
  | authError (msg : String)
  | networkError (msg : String)
deriving DecidableEq, Repr

/-- The retry loop of src/api/phynApi.ts `authenticate` (`for (let
attempt = 0; attempt < AUTH_RETRY_ATTEMPTS; attempt++)`), embedded with
the remaining iteration count as fuel and the loop index carried
explicitly.  `provider attempt` is the outcome of the Cognito handshake
on that attempt.  Returns the final state, the result, the number of
handshake attempts made, and the list of inter-attempt delays slept. -/
def authLoop (provider : Nat → CognitoOutcome) :
    Nat → Nat → Option String → ApiState →
    ApiState × AuthResult × Nat × List Nat
  | 0, _, lastError, s =>
    (s, AuthResult.networkError (lastError.getD "Authentication failed"), 0, [])
  | remaining + 1, attempt, _, s =>
    match provider attempt with
    | CognitoOutcome.success accessJwt idJwt expiration =>
        ({ s with
            accessToken := some accessJwt
            idToken := some idJwt
            tokenExpiresAt := expiration },
          AuthResult.ok, 1, [])
    | CognitoOutcome.failure name msg =>
        if name = "NotAuthorizedException" ∨ name = "UserNotFoundException" then
          (s, AuthResult.authError ("Authentication failed: " ++ msg), 1, [])
        else
          let lastError := some ("Network error during authentication: " ++ msg)
          let delays := if remaining > 0 then [AUTH_RETRY_DELAY_MS] else []
          let r := authLoop provider remaining (attempt + 1) lastError s
          (r.1, r.2.1, r.2.2.1 + 1, delays ++ r.2.2.2)

/-- src/api/phynApi.ts `authenticate`: create the Cognito user, then run
the bounded retry loop starting at attempt 0 with no recorded error. -/
def PhynApi.authenticate (provider : Nat → CognitoOutcome) (s : ApiState) :
    ApiState × AuthResult × Nat × List Nat :=
  authLoop provider AUTH_RETRY_ATTEMPTS 0 none { s with cognitoUser := true }

/-- Outcome of the `refreshSession` callback in `refreshTokenIfNeeded`:
`noSession` is `getSignInUserSession()` returning null, `failure` the
error callback, `success` a fresh session. -/
inductive RefreshOutcome where
  | noSession
  | failure (msg : String)
  | success (accessJwt idJwt : String) (expiration : Rat)
deriving DecidableEq, Repr

/-- src/api/phynApi.ts `refreshTokenIfNeeded`, with `Date.now() / 1000`
passed in as `now` (seconds) and the provider interaction as `outcome`.
Returns the state, the result, and whether the refresh block was
entered (both early-return guards passed). -/
def PhynApi.refreshTokenIfNeeded (now : Rat) (outcome : RefreshOutcome)
    (s : ApiState) : ApiState × AuthResult × Bool :=
  if ¬ s.cognitoUser ∨ s.accessToken = none then (s, AuthResult.ok, false)
  else if s.tokenExpiresAt - now ≥ (TOKEN_REFRESH_BUFFER_SECS : Rat) then
    (s, AuthResult.ok, false)
  else
    match outcome with
    | RefreshOutcome.noSession =>
        (s, AuthResult.authError "No active session to refresh", true)
    | RefreshOutcome.failure msg =>
        (s, AuthResult.authError ("Token refresh failed: " ++ msg), true)
    | RefreshOutcome.success accessJwt idJwt expiration =>
        ({ s with
            accessToken := some accessJwt
            idToken := some idJwt
            tokenExpiresAt := expiration },
          AuthResult.ok, true)

/-! ## PPAccessory (src/accessory/pp.ts) -/

/-- HAP characteristic value constants used by the valve accessory. -/
def ACTIVE : Nat := 1

def INACTIVE : Nat := 0

def IN_USE : Nat := 1

def NOT_IN_USE : Nat := 0

def LEAK_DETECTED : Nat := 1

def LEAK_NOT_DETECTED : Nat := 0

/-- One `updateCharacteristic` call pushed to a HomeKit service. -/
inductive CharUpdate where
  | active (v : Nat)
  | inUse (v : Nat)
  | leakDetected (v : Nat)
  | currentTemperature (v : Rat)
deriving DecidableEq, Repr

/-- Mutable fields of `PPAccessory` that the update paths touch. -/
structure PPState where
  currentState : Option PhynDeviceState
deriving DecidableEq, Repr

/-- JavaScript `x?.v ?? x?.mean ?? dflt` over a `PhynValueField`. -/
def valueOrMean (x : Option PhynValueField) (dflt : Rat) : Rat :=
  match x with
  | none => dflt
  | some f => f.v.getD (f.mean.getD dflt)

/-- The test `state.sov_status?.v === 'Open'`. -/
def sovIsOpen (sov : Option StrV) : Bool :=
  match sov with
  | some s => s.v = "Open"
  | none => false

/-- Truthiness of `state.alerts?.is_leak`. -/
def alertsIsLeak (alerts : Option PhynAlerts) : Bool :=
  match alerts with
  | some a => a.is_leak.getD false
  | none => false

/-- src/accessory/pp.ts `getActive`: INACTIVE while no snapshot exists,
else follows `sov_status?.v === 'Open'`. -/
def PPAccessory.getActive (cur : Option PhynDeviceState) : Nat :=
  match cur with
  | none => INACTIVE
  | some st => if sovIsOpen st.sov_status then ACTIVE else INACTIVE

/-- src/accessory/pp.ts `getInUse`: NOT_IN_USE while no snapshot
exists, else IN_USE iff `flow?.v ?? flow?.mean ?? 0` is positive. -/
def PPAccessory.getInUse (cur : Option PhynDeviceState) : Nat :=
  match cur with
  | none => NOT_IN_USE
  | some st => if valueOrMean st.flow 0 > 0 then IN_USE else NOT_IN_USE

/-- src/accessory/pp.ts `getLeakDetected`: LEAK_NOT_DETECTED while no
snapshot exists, else follows `alerts?.is_leak`. -/
def PPAccessory.getLeakDetected (cur : Option PhynDeviceState) : Nat :=
  match cur with
  | none => LEAK_NOT_DETECTED
  | some st => if alertsIsLeak st.alerts then LEAK_DETECTED else LEAK_NOT_DETECTED

/-- src/accessory/pp.ts `getCurrentTemperature`: 0 while no snapshot
exists, else convert `temperature?.v ?? temperature?.mean ?? 32`. -/
def PPAccessory.getCurrentTemperature (cur : Option PhynDeviceState) : Rat :=
  match cur with
  | none => 0
  | some st => fahrenheitToCelsius (valueOrMean st.temperature 32)

/-- src/accessory/pp.ts `updateFromState`: the poll path.  The snapshot
is assigned wholesale (`this.currentState = state`), then Active, InUse,
LeakDetected and CurrentTemperature are recomputed from the new state
and pushed.  The Valve, LeakSensor and TemperatureSensor services are
created in the constructor, so the `getService` guards always hold. -/
def PPAccessory.updateFromState (state : PhynDeviceState) (a : PPState) :
    PPState × List CharUpdate :=
  let a1 : PPState := { a with currentState := some state }
  let isActive := if sovIsOpen state.sov_status then ACTIVE else INACTIVE
  let flowVal := valueOrMean state.flow 0
  let inUse := if flowVal > 0 then IN_USE else NOT_IN_USE
  let leakDetected :=
    if alertsIsLeak state.alerts then LEAK_DETECTED else LEAK_NOT_DETECTED
  let temp := fahrenheitToCelsius (valueOrMean state.temperature 32)
  (a1,
    [CharUpdate.active isActive, CharUpdate.inUse inUse,
      CharUpdate.leakDetected leakDetected, CharUpdate.currentTemperature temp])

/-- src/accessory/pp.ts `updateFromMqtt`: the push path.  Each block
fires only when its payload field is present; the snapshot's
`sov_status` and `flow` are patched only when a snapshot already
exists; the temperature block touches only the characteristic, never
the snapshot. -/
def PPAccessory.updateFromMqtt (payload : PhynMqttPayload) (a : PPState) :
    PPState × List CharUpdate :=
  let step1 : PPState × List CharUpdate :=
    match payload.sov_state with
    | some sv =>
        let isActive := if sv = "Open" then ACTIVE else INACTIVE
        let a1 : PPState :=
          match a.currentState with
          | some st => { a with currentState := some { st with sov_status := some ⟨sv⟩ } }
          | none => a
        (a1, [CharUpdate.active isActive])
    | none => (a, [])
  let step2 : List CharUpdate :=
    match payload.sensor_data with
    | some sd =>
        match sd.temperature with
        | some t =>
            [CharUpdate.currentTemperature
              (fahrenheitToCelsius (t.v.getD (t.mean.getD 32)))]
        | none => []
    | none => []
  let step3 : PPState × List CharUpdate :=
    match payload.flow, step1.1.currentState with
    | some fl, some st =>
        let a2 : PPState := { step1.1 with currentState := some { st with flow := some fl } }
        let flowVal := fl.v.getD (fl.mean.getD 0)
        (a2, [CharUpdate.inUse (if flowVal > 0 then IN_USE else NOT_IN_USE)])
    | _, _ => (step1.1, [])
  (step3.1, step1.2 ++ step2 ++ step3.2)

/-! ## Helper lemmas -/

theorem splitOnSlash_ne_nil (l : List Char) : splitOnSlash l ≠ [] := by
  induction l with
  | nil => simp [splitOnSlash]
  | cons c cs ih =>
    simp only [splitOnSlash]
    by_cases hc : c = '/'
    · simp [hc]
    · simp only [hc, if_false]
      cases h : splitOnSlash cs with
      | nil => exact absurd h ih
      | cons r rs => simp

theorem splitOnSlash_no_slash (d : List Char) (hd : '/' ∉ d) :
    splitOnSlash d = [d] := by
  induction d with
  | nil => rfl
  | cons c cs ih =>
    simp only [List.mem_cons, not_or] at hd
    simp only [splitOnSlash, ih hd.2]
    simp [Ne.symm hd.1]

theorem splitOnSlash_append_two_le (x d : List Char) :
    2 ≤ (splitOnSlash (x ++ '/' :: d)).length := by
  induction x with
  | nil =>
    simp only [List.nil_append, splitOnSlash, if_pos rfl, List.length_cons]
    have := splitOnSlash_ne_nil d
    cases h : splitOnSlash d with
    | nil => exact absurd h this
    | cons r rs => simp
  | cons c cs ih =>
    simp only [List.cons_append, splitOnSlash]
    by_cases hc : c = '/'
    · simp only [hc, if_pos rfl, List.length_cons]
      have := splitOnSlash_ne_nil (cs ++ '/' :: d)
      cases h : splitOnSlash (cs ++ '/' :: d) with
      | nil => exact absurd h this
      | cons r rs => simp
    · simp only [hc, if_false]
      cases h : splitOnSlash (cs ++ '/' :: d) with
      | nil => exact absurd h (splitOnSlash_ne_nil _)
      | cons r rs =>
        rw [h] at ih
        simpa using ih

theorem splitOnSlash_append_getLast? (x d : List Char) :
    (splitOnSlash (x ++ '/' :: d)).getLast? = (splitOnSlash d).getLast? := by
  induction x with
  | nil =>
    simp only [List.nil_append, splitOnSlash, if_pos rfl]
    cases h : splitOnSlash d with
    | nil => exact absurd h (splitOnSlash_ne_nil d)
    | cons r rs => simp
  | cons c cs ih =>
    simp only [List.cons_append, splitOnSlash]
    by_cases hc : c = '/'
    · simp only [hc, if_pos rfl]
      cases h : splitOnSlash (cs ++ '/' :: d) with
      | nil => exact absurd h (splitOnSlash_ne_nil _)
      | cons r rs =>
        simp only [if_true, List.getLast?_cons_cons, ← ih, h]
    · simp only [hc, if_false]
      have h2 := splitOnSlash_append_two_le cs d
      cases h : splitOnSlash (cs ++ '/' :: d) with
      | nil => exact absurd h (splitOnSlash_ne_nil _)
      | cons r rs =>
        cases rs with
        | nil => rw [h] at h2; simp at h2
        | cons r2 rs2 =>
          rw [h] at ih
          rw [List.getLast?_cons_cons, ← ih, List.getLast?_cons_cons]

theorem lastTopicPart_append (x d : List Char) (hd : '/' ∉ d) :
    lastTopicPart (x ++ '/' :: d) = d := by
  unfold lastTopicPart
  rw [List.getLastD_eq_getLast?, splitOnSlash_append_getLast?,
    splitOnSlash_no_slash d hd]
  rfl

theorem runFailingReconnects_spec (n : Nat) :
    ∀ s : MqttState, s.reconnectAttempts ≤ MQTT_RECONNECT_MAX_ATTEMPTS →
      (runFailingReconnects n s).2 = min n (MQTT_RECONNECT_MAX_ATTEMPTS - s.reconnectAttempts)
    ∧ (runFailingReconnects n s).1.reconnectAttempts
        = min (s.reconnectAttempts + n) MQTT_RECONNECT_MAX_ATTEMPTS := by
  induction n with
  | zero =>
    intro s hs
    simp only [runFailingReconnects, MQTT_RECONNECT_MAX_ATTEMPTS] at *
    omega
  | succ n ih =>
    intro s hs
    simp only [runFailingReconnects, MqttClient.scheduleReconnect,
      MQTT_RECONNECT_MAX_ATTEMPTS] at *
    by_cases hge : s.reconnectAttempts ≥ 20
    · simp only [hge, if_pos]
      omega
    · simp only [hge, if_false]
      have hle : ({ s with reconnectAttempts := s.reconnectAttempts + 1 } :
          MqttState).reconnectAttempts ≤ 20 := by simp; omega
      have := ih { s with reconnectAttempts := s.reconnectAttempts + 1 }
        (by simpa [MQTT_RECONNECT_MAX_ATTEMPTS] using hle)
      simp only [MQTT_RECONNECT_MAX_ATTEMPTS] at this
      simp only [this.1, this.2]
      constructor <;> omega

theorem scheduleReconnect_at_ceiling (s : MqttState)
    (h : s.reconnectAttempts = MQTT_RECONNECT_MAX_ATTEMPTS) :
    MqttClient.scheduleReconnect s
      = (s, [MqttEffect.logError "MQTT reconnect failed after 20 attempts"], none) := by
  have hstr : "MQTT reconnect failed after " ++ toString MQTT_RECONNECT_MAX_ATTEMPTS
      ++ " attempts" = "MQTT reconnect failed after 20 attempts" := by decide
  unfold MqttClient.scheduleReconnect
  rw [if_pos (le_of_eq h.symm), hstr]

/-! ## Claims -/

/-- C7: for every attempt in [0, 100], the reconnect backoff delay
`mqttBackoffDelay attempt 2000 60000` equals
`min (2000 * 2 ^ attempt) 60000` milliseconds and is at most 60000,
and attempt 0 (the counter value a fresh client hands to the first
scheduled reconnect) gives a first-retry delay of 2000 ms. -/
theorem c7_backoff_delay_formula (attempt : Nat) (s : MqttState)
    (h : attempt ≤ 100) (hs : s.reconnectAttempts = 0) :
    mqttBackoffDelay attempt MQTT_RECONNECT_BASE_MS MQTT_RECONNECT_MAX_MS
        = min (2000 * 2 ^ attempt) 60000
  ∧ mqttBackoffDelay attempt MQTT_RECONNECT_BASE_MS MQTT_RECONNECT_MAX_MS ≤ 60000
  ∧ (MqttClient.scheduleReconnect s).2.2
        = some (mqttBackoffDelay 0 MQTT_RECONNECT_BASE_MS MQTT_RECONNECT_MAX_MS)
  ∧ mqttBackoffDelay 0 MQTT_RECONNECT_BASE_MS MQTT_RECONNECT_MAX_MS = 2000 := by
  refine ⟨rfl, Nat.min_le_right _ _, ?_, by decide⟩
  unfold MqttClient.scheduleReconnect
  rw [if_neg (by rw [hs]; decide), hs]

theorem c7_backoff_delay_formula_witness :
    (3 : Nat) ≤ 100
  ∧ (⟨true, [], 0, "wss://x"⟩ : MqttState).reconnectAttempts = 0
  ∧ (mqttBackoffDelay 3 MQTT_RECONNECT_BASE_MS MQTT_RECONNECT_MAX_MS
        = min (2000 * 2 ^ 3) 60000
      ∧ mqttBackoffDelay 3 MQTT_RECONNECT_BASE_MS MQTT_RECONNECT_MAX_MS ≤ 60000
      ∧ (MqttClient.scheduleReconnect ⟨true, [], 0, "wss://x"⟩).2.2
            = some (mqttBackoffDelay 0 MQTT_RECONNECT_BASE_MS MQTT_RECONNECT_MAX_MS)
      ∧ mqttBackoffDelay 0 MQTT_RECONNECT_BASE_MS MQTT_RECONNECT_MAX_MS = 2000) :=
  ⟨by decide, rfl, c7_backoff_delay_formula 3 ⟨true, [], 0, "wss://x"⟩ (by decide) rfl⟩

/-- C10: before the first successful poll (`currentState` still null),
every characteristic getter of the valve accessory returns its safe
default: Active ↦ INACTIVE, InUse ↦ NOT_IN_USE, LeakDetected ↦
LEAK_NOT_DETECTED, CurrentTemperature ↦ 0. -/
theorem c10_safe_defaults_before_first_poll :
    PPAccessory.getActive none = INACTIVE
  ∧ PPAccessory.getInUse none = NOT_IN_USE
  ∧ PPAccessory.getLeakDetected none = LEAK_NOT_DETECTED
  ∧ PPAccessory.getCurrentTemperature none = 0 :=
  ⟨rfl, rfl, rfl, rfl⟩

/-- C9: a push message whose payload fails to parse as JSON is logged
as a warning and dropped: no message event is emitted, the client state
(including the connection) is untouched, and no error escapes. -/
theorem c9_malformed_payload_dropped (s : MqttState) (topic : List Char) :
    (MqttClient.onMessage s topic none).1 = s
  ∧ (MqttClient.onMessage s topic none).2
      = [MqttEffect.logWarn
          ("Failed to parse MQTT message on topic " ++ String.mk topic)]
  ∧ (∀ d p, MqttEffect.emitMessage d p ∉ (MqttClient.onMessage s topic none).2)
  ∧ MqttEffect.transportEnd ∉ (MqttClient.onMessage s topic none).2 := by
  refine ⟨rfl, rfl, ?_, ?_⟩
  · intro d p
    simp [MqttClient.onMessage]
  · simp [MqttClient.onMessage]

/-- C3: once 20 scheduled reconnect attempts have all failed, the push
client schedules no further reconnect (the attempt count in an
all-failing sequence of any length n ≥ 20 is exactly 20) and the next
close surfaces the fatal `MQTT reconnect failed after 20 attempts`
error instead of scheduling a timer. -/
theorem c3_reconnect_ceiling (n : Nat) (s : MqttState)
    (hn : MQTT_RECONNECT_MAX_ATTEMPTS ≤ n) (hs : s.reconnectAttempts = 0) :
    (runFailingReconnects n s).2 = MQTT_RECONNECT_MAX_ATTEMPTS
  ∧ (MqttClient.scheduleReconnect (runFailingReconnects n s).1).2.2 = none
  ∧ (MqttClient.scheduleReconnect (runFailingReconnects n s).1).2.1
      = [MqttEffect.logError "MQTT reconnect failed after 20 attempts"] := by
  have hspec := runFailingReconnects_spec n s (by omega)
  have hfin : (runFailingReconnects n s).1.reconnectAttempts
      = MQTT_RECONNECT_MAX_ATTEMPTS := by
    rw [hspec.2, hs]
    simp only [MQTT_RECONNECT_MAX_ATTEMPTS] at *
    omega
  have hsr := scheduleReconnect_at_ceiling _ hfin
  refine ⟨?_, ?_, ?_⟩
  · rw [hspec.1, hs]
    simp only [MQTT_RECONNECT_MAX_ATTEMPTS] at *
    omega
  · rw [hsr]
  · rw [hsr]

theorem c3_reconnect_ceiling_witness :
    MQTT_RECONNECT_MAX_ATTEMPTS ≤ 25
  ∧ (⟨false, [], 0, "wss://x"⟩ : MqttState).reconnectAttempts = 0
  ∧ ((runFailingReconnects 25 ⟨false, [], 0, "wss://x"⟩).2 = MQTT_RECONNECT_MAX_ATTEMPTS
      ∧ (MqttClient.scheduleReconnect
          (runFailingReconnects 25 ⟨false, [], 0, "wss://x"⟩).1).2.2 = none
      ∧ (MqttClient.scheduleReconnect
          (runFailingReconnects 25 ⟨false, [], 0, "wss://x"⟩).1).2.1
        = [MqttEffect.logError "MQTT reconnect failed after 20 attempts"]) :=
  ⟨by decide, rfl, c3_reconnect_ceiling 25 ⟨false, [], 0, "wss://x"⟩ (by decide) rfl⟩

theorem count_brokerSubscribe_flatMap (subs : List String) (t : String) :
    (subs.flatMap (fun t' =>
        [MqttEffect.brokerSubscribe t',
          MqttEffect.logInfo ("Re-subscribed to " ++ t')])).count
      (MqttEffect.brokerSubscribe t) = subs.count t := by
  induction subs with
  | nil => rfl
  | cons x xs ih =>
    simp only [List.flatMap_cons, List.count_append, List.count_cons, ih,
      List.count_nil]
    have hne : (MqttEffect.logInfo ("Re-subscribed to " ++ x)
        = MqttEffect.brokerSubscribe t) = False := by simp
    simp only [beq_iff_eq, MqttEffect.brokerSubscribe.injEq, hne, if_false,
      Nat.zero_add]
    exact Nat.add_comm _ _

/-- C4: on a successful reconnect of the push client, every topic in
the Subscription Set at that moment is resubscribed exactly once, and
`reconnectAttempts` is reset to 0. -/
theorem c4_reconnect_resubscribes_all (s : MqttState) (t : String)
    (hnd : s.subscriptions.Nodup) (ht : t ∈ s.subscriptions) :
    (MqttClient.reconnectTimerSuccess s).1.reconnectAttempts = 0
  ∧ ((MqttClient.reconnectTimerSuccess s).2).count (MqttEffect.brokerSubscribe t)
      = 1 := by
  refine ⟨rfl, ?_⟩
  show ((s.subscriptions).flatMap _).count _ = 1
  rw [count_brokerSubscribe_flatMap]
  exact List.count_eq_one_of_mem hnd ht

theorem c4_reconnect_resubscribes_all_witness :
    (⟨false, ["prd/app_subscriptions/d1", "prd/app_subscriptions/d2"], 7,
        "wss://x"⟩ : MqttState).subscriptions.Nodup
  ∧ "prd/app_subscriptions/d1" ∈
      (⟨false, ["prd/app_subscriptions/d1", "prd/app_subscriptions/d2"], 7,
        "wss://x"⟩ : MqttState).subscriptions
  ∧ ((MqttClient.reconnectTimerSuccess
        ⟨false, ["prd/app_subscriptions/d1", "prd/app_subscriptions/d2"], 7,
          "wss://x"⟩).1.reconnectAttempts = 0
      ∧ ((MqttClient.reconnectTimerSuccess
            ⟨false, ["prd/app_subscriptions/d1", "prd/app_subscriptions/d2"], 7,
              "wss://x"⟩).2).count
          (MqttEffect.brokerSubscribe "prd/app_subscriptions/d1") = 1) :=
  ⟨by decide, by decide,
    c4_reconnect_resubscribes_all _ _ (by decide) (by decide)⟩

/-- C5 counterexample: after `disconnect()` on a connected client, the
close event that the transport shutdown triggers still runs the
unconditional close handler and schedules a reconnect timer — the
claim that no further reconnect is ever scheduled after `disconnect()`
is false. -/
theorem c5_counterexample :
    MqttEffect.scheduleTimer 2000 ∈
      (MqttClient.onClose
        (MqttClient.disconnect
          ⟨true, ["prd/app_subscriptions/d1"], 0, "wss://x"⟩).1).2 := by
  decide

/-- C5 amended: `disconnect()` on a connected client closes the
transport and nulls the client, and a second `disconnect()` call is a
no-op (idempotent); however reconnect scheduling is not suppressed:
the close event triggered by the disconnect runs the unconditional
close handler, which (below the 20-attempt ceiling) schedules a
reconnect timer. -/
theorem c5_amended_disconnect (s : MqttState) (h : s.client = true)
    (hc : s.reconnectAttempts < MQTT_RECONNECT_MAX_ATTEMPTS) :
    (MqttClient.disconnect s).1 = { s with client := false }
  ∧ (MqttClient.disconnect s).2 = [MqttEffect.transportEnd]
  ∧ MqttClient.disconnect (MqttClient.disconnect s).1
      = ((MqttClient.disconnect s).1, [])
  ∧ MqttEffect.scheduleTimer
        (mqttBackoffDelay s.reconnectAttempts MQTT_RECONNECT_BASE_MS
          MQTT_RECONNECT_MAX_MS) ∈
      (MqttClient.onClose (MqttClient.disconnect s).1).2 := by
  have hd : MqttClient.disconnect s
      = ({ s with client := false }, [MqttEffect.transportEnd]) := by
    unfold MqttClient.disconnect
    rw [if_pos h]
  refine ⟨by rw [hd], by rw [hd], ?_, ?_⟩
  · rw [hd]
    unfold MqttClient.disconnect
    simp
  · rw [hd]
    unfold MqttClient.onClose MqttClient.scheduleReconnect
    rw [if_neg (by simpa using Nat.not_le.mpr hc)]
    simp

theorem c5_amended_disconnect_witness :
    (⟨true, ["prd/app_subscriptions/d1"], 0, "wss://x"⟩ : MqttState).client = true
  ∧ (⟨true, ["prd/app_subscriptions/d1"], 0, "wss://x"⟩ :
        MqttState).reconnectAttempts < MQTT_RECONNECT_MAX_ATTEMPTS
  ∧ ((MqttClient.disconnect ⟨true, ["prd/app_subscriptions/d1"], 0, "wss://x"⟩).1
        = { (⟨true, ["prd/app_subscriptions/d1"], 0, "wss://x"⟩ : MqttState) with
            client := false }
      ∧ (MqttClient.disconnect
            ⟨true, ["prd/app_subscriptions/d1"], 0, "wss://x"⟩).2
          = [MqttEffect.transportEnd]
      ∧ MqttClient.disconnect
            (MqttClient.disconnect
              ⟨true, ["prd/app_subscriptions/d1"], 0, "wss://x"⟩).1
          = ((MqttClient.disconnect
              ⟨true, ["prd/app_subscriptions/d1"], 0, "wss://x"⟩).1, [])
      ∧ MqttEffect.scheduleTimer
            (mqttBackoffDelay
              (⟨true, ["prd/app_subscriptions/d1"], 0, "wss://x"⟩ :
                MqttState).reconnectAttempts MQTT_RECONNECT_BASE_MS
              MQTT_RECONNECT_MAX_MS) ∈
          (MqttClient.onClose
            (MqttClient.disconnect
              ⟨true, ["prd/app_subscriptions/d1"], 0, "wss://x"⟩).1).2) :=
  ⟨rfl, by decide, c5_amended_disconnect _ rfl (by decide)⟩

/-- C8 counterexample: the round trip fails for a device identifier
that itself contains the topic separator.  `subscribe("a/b")` targets
the topic `prd/app_subscriptions/a/b`, but a message arriving on that
topic is dispatched with identifier `b` — the last '/'-separated
segment — which differs from `a/b`. -/
theorem c8_counterexample :
    (MqttClient.subscribe ⟨true, [], 0, "wss://x"⟩ "a/b").1.subscriptions
      = ["prd/app_subscriptions/a/b"]
  ∧ (MqttClient.onMessage ⟨true, [], 0, "wss://x"⟩
        ("prd/app_subscriptions/a/b").data
        (some ⟨none, none, none, none, none, none⟩)).2
      = [MqttEffect.emitMessage "b" ⟨none, none, none, none, none, none⟩]
  ∧ ("b" : String) ≠ "a/b" := by
  decide

/-- C8 amended: `subscribe(d)` targets exactly the topic
`"prd/app_subscriptions/" ++ d` for every device identifier, and for
every device identifier containing no '/' character, a message arriving
on that topic is dispatched with identifier equal to d (the round trip
holds); an identifier containing '/' is truncated to its last segment
on dispatch. -/
theorem c8_topic_roundtrip (d : List Char) (dId : String) (s : MqttState)
    (p : PhynMqttPayload) (hd : '/' ∉ d) :
    (MqttClient.subscribe s dId).1.subscriptions
        = setAdd s.subscriptions ( MQTT_TOPIC_PREFIX ++ "/" ++ dId)
  ∧ ( MQTT_TOPIC_PREFIX ++ "/" ++ String.mk d).data
        = MQTT_TOPIC_PREFIX.data ++ '/' :: d
  ∧ lastTopicPart ( MQTT_TOPIC_PREFIX.data ++ '/' :: d) = d
  ∧ (MqttClient.onMessage s ( MQTT_TOPIC_PREFIX.data ++ '/' :: d) (some p)).2
      = [MqttEffect.emitMessage (String.mk d) p] := by
  have hlast : lastTopicPart ( MQTT_TOPIC_PREFIX.data ++ '/' :: d) = d :=
    lastTopicPart_append _ d hd
  refine ⟨?_, ?_, hlast, ?_⟩
  · by_cases hc : s.client = true <;> simp [MqttClient.subscribe, hc]
  · simp [String.data_append]
  · unfold MqttClient.onMessage
    rw [hlast]

theorem c8_topic_roundtrip_witness :
    '/' ∉ ['d', 'e', 'v', '1']
  ∧ ((MqttClient.subscribe ⟨true, [], 0, "wss://x"⟩ "dev1").1.subscriptions
        = setAdd ([] : List String) ( MQTT_TOPIC_PREFIX ++ "/" ++ "dev1")
      ∧ ( MQTT_TOPIC_PREFIX ++ "/" ++ String.mk ['d', 'e', 'v', '1']).data
            = MQTT_TOPIC_PREFIX.data ++ '/' :: ['d', 'e', 'v', '1']
      ∧ lastTopicPart ( MQTT_TOPIC_PREFIX.data ++ '/' :: ['d', 'e', 'v', '1'])
            = ['d', 'e', 'v', '1']
      ∧ (MqttClient.onMessage ⟨true, [], 0, "wss://x"⟩
            ( MQTT_TOPIC_PREFIX.data ++ '/' :: ['d', 'e', 'v', '1'])
            (some ⟨none, none, none, none, none, none⟩)).2
          = [MqttEffect.emitMessage (String.mk ['d', 'e', 'v', '1'])
              ⟨none, none, none, none, none, none⟩]) :=
  ⟨by decide,
    c8_topic_roundtrip ['d', 'e', 'v', '1'] "dev1" ⟨true, [], 0, "wss://x"⟩
      ⟨none, none, none, none, none, none⟩ (by decide)⟩

/-- C2: `authenticate` classifies failures.  A provider that reports
invalid credentials or an unknown user on the first attempt causes
exactly one attempt, an immediate `AuthError`, and no delay; a provider
that fails every attempt with any other error name causes exactly
3 attempts, two 5000 ms inter-attempt delays, and a `NetworkError`
wrapping the last underlying error message. -/
theorem c2_authenticate_retry_policy
    (p1 p2 : Nat → CognitoOutcome) (s1 s2 : ApiState)
    (msg n0 n1 n2 m0 m1 m2 : String)
    (h1 : p1 0 = CognitoOutcome.failure "NotAuthorizedException" msg
        ∨ p1 0 = CognitoOutcome.failure "UserNotFoundException" msg)
    (h20 : p2 0 = CognitoOutcome.failure n0 m0)
    (h21 : p2 1 = CognitoOutcome.failure n1 m1)
    (h22 : p2 2 = CognitoOutcome.failure n2 m2)
    (he0 : n0 ≠ "NotAuthorizedException" ∧ n0 ≠ "UserNotFoundException")
    (he1 : n1 ≠ "NotAuthorizedException" ∧ n1 ≠ "UserNotFoundException")
    (he2 : n2 ≠ "NotAuthorizedException" ∧ n2 ≠ "UserNotFoundException") :
    PhynApi.authenticate p1 s1
        = ({ s1 with cognitoUser := true },
            AuthResult.authError ("Authentication failed: " ++ msg), 1, [])
  ∧ PhynApi.authenticate p2 s2
        = ({ s2 with cognitoUser := true },
            AuthResult.networkError
              ("Network error during authentication: " ++ m2),
            AUTH_RETRY_ATTEMPTS, [AUTH_RETRY_DELAY_MS, AUTH_RETRY_DELAY_MS]) := by
  constructor
  · unfold PhynApi.authenticate
    show authLoop p1 3 0 none _ = _
    rcases h1 with h1 | h1 <;>
      simp [authLoop, h1]
  · unfold PhynApi.authenticate
    show authLoop p2 3 0 none _ = _
    simp [authLoop, h20, h21, h22, he0.1, he0.2, he1.1, he1.2, he2.1, he2.2,
      AUTH_RETRY_DELAY_MS, AUTH_RETRY_ATTEMPTS]

theorem c2_authenticate_retry_policy_witness :
    ((fun _ => CognitoOutcome.failure "NotAuthorizedException" "bad password" :
        Nat → CognitoOutcome) 0
      = CognitoOutcome.failure "NotAuthorizedException" "bad password"
    ∨ (fun _ => CognitoOutcome.failure "NotAuthorizedException" "bad password" :
        Nat → CognitoOutcome) 0
      = CognitoOutcome.failure "UserNotFoundException" "bad password")
  ∧ PhynApi.authenticate
        (fun _ => CognitoOutcome.failure "NotAuthorizedException" "bad password")
        ⟨none, none, 0, false⟩
      = (⟨none, none, 0, true⟩,
          AuthResult.authError "Authentication failed: bad password", 1, [])
  ∧ PhynApi.authenticate
        (fun _ => CognitoOutcome.failure "TimeoutError" "socket timeout")
        ⟨none, none, 0, false⟩
      = (⟨none, none, 0, true⟩,
          AuthResult.networkError
            "Network error during authentication: socket timeout",
          AUTH_RETRY_ATTEMPTS, [AUTH_RETRY_DELAY_MS, AUTH_RETRY_DELAY_MS]) := by
  have h := c2_authenticate_retry_policy
    (fun _ => CognitoOutcome.failure "NotAuthorizedException" "bad password")
    (fun _ => CognitoOutcome.failure "TimeoutError" "socket timeout")
    ⟨none, none, 0, false⟩ ⟨none, none, 0, false⟩
    "bad password" "TimeoutError" "TimeoutError" "TimeoutError"
    "socket timeout" "socket timeout" "socket timeout"
    (Or.inl rfl) rfl rfl rfl
    (by decide) (by decide) (by decide)
  exact ⟨Or.inl rfl, h.1, h.2⟩

/-- C6: `refreshTokenIfNeeded` enters its refresh block if and only if
a session exists (`cognitoUser` set and an access token held) and the
token's remaining lifetime `expiresAt - now` is below the 60-second
buffer; with no session it returns normally changing nothing, and with
remaining lifetime at least 60 s the token pair and expiry are left
unchanged. -/
theorem c6_refresh_trigger (now : Rat) (o : RefreshOutcome) (s : ApiState) :
    ((PhynApi.refreshTokenIfNeeded now o s).2.2 = true
        ↔ (s.cognitoUser = true ∧ s.accessToken ≠ none
            ∧ s.tokenExpiresAt - now < (TOKEN_REFRESH_BUFFER_SECS : Rat)))
  ∧ ((¬ s.cognitoUser = true ∨ s.accessToken = none) →
        PhynApi.refreshTokenIfNeeded now o s = (s, AuthResult.ok, false))
  ∧ ((TOKEN_REFRESH_BUFFER_SECS : Rat) ≤ s.tokenExpiresAt - now →
        (PhynApi.refreshTokenIfNeeded now o s).1 = s) := by
  unfold PhynApi.refreshTokenIfNeeded
  by_cases hng : ¬ s.cognitoUser ∨ s.accessToken = none
  · rw [if_pos hng]
    refine ⟨?_, fun _ => rfl, fun _ => rfl⟩
    simp only [Bool.false_eq_true, false_iff]
    rintro ⟨hcu, hat, _⟩
    rcases hng with hng | hng
    · exact hng hcu
    · exact hat hng
  · rw [if_neg hng]
    push_neg at hng
    by_cases hrem : s.tokenExpiresAt - now ≥ (TOKEN_REFRESH_BUFFER_SECS : Rat)
    · rw [if_pos hrem]
      refine ⟨?_, ?_, fun _ => rfl⟩
      · simp only [Bool.false_eq_true, false_iff]
        rintro ⟨_, _, hlt⟩
        exact absurd hrem (not_le.mpr hlt)
      · rintro (hc | ha)
        · exact absurd (by simpa using hng.1) hc
        · exact absurd ha hng.2
    · rw [if_neg hrem]
      push_neg at hrem
      refine ⟨?_, ?_, fun hge => absurd hge (not_le.mpr hrem)⟩
      · constructor
        · intro _
          exact ⟨by simpa using hng.1, hng.2, hrem⟩
        · intro _
          cases o <;> rfl
      · rintro (hc | ha)
        · exact absurd (by simpa using hng.1) hc
        · exact absurd ha hng.2

theorem c6_refresh_trigger_witness :
    (PhynApi.refreshTokenIfNeeded 1000
        (RefreshOutcome.success "a2" "i2" 5000)
        ⟨some "a1", some "i1", 1030, true⟩).2.2 = true
  ∧ (PhynApi.refreshTokenIfNeeded 1000
        (RefreshOutcome.success "a2" "i2" 5000)
        ⟨none, none, 1030, false⟩)
      = (⟨none, none, 1030, false⟩, AuthResult.ok, false)
  ∧ (PhynApi.refreshTokenIfNeeded 1000
        (RefreshOutcome.success "a2" "i2" 5000)
        ⟨some "a1", some "i1", 1090, true⟩).1
      = ⟨some "a1", some "i1", 1090, true⟩ :=
  ⟨(c6_refresh_trigger 1000 (RefreshOutcome.success "a2" "i2" 5000)
      ⟨some "a1", some "i1", 1030, true⟩).1.mpr
      ⟨rfl, by decide, by norm_num [TOKEN_REFRESH_BUFFER_SECS]⟩,
    (c6_refresh_trigger 1000 (RefreshOutcome.success "a2" "i2" 5000)
      ⟨none, none, 1030, false⟩).2.1 (Or.inl (by decide)),
    (c6_refresh_trigger 1000 (RefreshOutcome.success "a2" "i2" 5000)
      ⟨some "a1", some "i1", 1090, true⟩).2.2
      (by norm_num [TOKEN_REFRESH_BUFFER_SECS])⟩

theorem updateFromMqtt_currentState (p : PhynMqttPayload) (a : PPState) :
    (PPAccessory.updateFromMqtt p a).1.currentState
      = a.currentState.map (fun st =>
          { st with
            sov_status :=
              match p.sov_state with
              | some sv => some ⟨sv⟩
              | none => st.sov_status
            flow :=
              match p.flow with
              | some fl => some fl
              | none => st.flow }) := by
  cases hsv : p.sov_state <;> cases hfl : p.flow <;>
    cases hcs : a.currentState <;>
    simp [PPAccessory.updateFromMqtt, hsv, hfl, hcs]

/-- C1 counterexample: the poll path does not retain fields absent
from the poll response.  A snapshot holding a flow reading, updated
via `updateFromState` with a poll response that carries no `flow`
field, loses the flow reading (the snapshot is assigned wholesale),
contradicting the claim that absent fields retain their values on the
poll path. -/
theorem c1_counterexample :
    (⟨none, some ⟨"Open"⟩, none, none, none, none, none, none, none, none,
        none, none, none, none⟩ : PhynDeviceState).flow = none
  ∧ ((⟨some ⟨none, none, some ⟨some 5, none, none⟩, none, none, none, none,
        none, none, none, none, none, none, none⟩⟩ :
          PPState).currentState.bind PhynDeviceState.flow
      = some ⟨some 5, none, none⟩)
  ∧ (PPAccessory.updateFromState
        ⟨none, some ⟨"Open"⟩, none, none, none, none, none, none, none, none,
          none, none, none, none⟩
        ⟨some ⟨none, none, some ⟨some 5, none, none⟩, none, none, none, none,
          none, none, none, none, none, none, none⟩⟩).1.currentState.bind
      PhynDeviceState.flow ≠ some ⟨some 5, none, none⟩ := by
  refine ⟨rfl, rfl, ?_⟩
  simp [PPAccessory.updateFromState]

/-- C1 amended: the push path (`updateFromMqtt`) has the frame
property — a tracked snapshot field absent from the push message
retains its previous value, and fields the push path never writes
(everything except `sov_status` and `flow`) are always retained — but
the poll path (`updateFromState`) replaces the snapshot wholesale with
the poll response, so a tracked field absent from the poll response is
cleared rather than retained. -/
theorem c1_merge_frame (p : PhynMqttPayload) (a : PPState)
    (st : PhynDeviceState) :
    (PPAccessory.updateFromState st a).1.currentState = some st
  ∧ (p.sov_state = none →
      (PPAccessory.updateFromMqtt p a).1.currentState.map
          PhynDeviceState.sov_status
        = a.currentState.map PhynDeviceState.sov_status)
  ∧ (p.flow = none →
      (PPAccessory.updateFromMqtt p a).1.currentState.map PhynDeviceState.flow
        = a.currentState.map PhynDeviceState.flow)
  ∧ (PPAccessory.updateFromMqtt p a).1.currentState.map
        PhynDeviceState.temperature
      = a.currentState.map PhynDeviceState.temperature
  ∧ (PPAccessory.updateFromMqtt p a).1.currentState.map PhynDeviceState.pressure
      = a.currentState.map PhynDeviceState.pressure
  ∧ (PPAccessory.updateFromMqtt p a).1.currentState.map PhynDeviceState.alerts
      = a.currentState.map PhynDeviceState.alerts
  ∧ (PPAccessory.updateFromMqtt p a).1.currentState.map
        PhynDeviceState.device_id
      = a.currentState.map PhynDeviceState.device_id
  ∧ (PPAccessory.updateFromMqtt p a).1.currentState.map
        PhynDeviceState.online_status
      = a.currentState.map PhynDeviceState.online_status
  ∧ (PPAccessory.updateFromMqtt p a).1.currentState.map
        PhynDeviceState.fw_version
      = a.currentState.map PhynDeviceState.fw_version
  ∧ (PPAccessory.updateFromMqtt p a).1.currentState.map
        PhynDeviceState.serial_number
      = a.currentState.map PhynDeviceState.serial_number
  ∧ (PPAccessory.updateFromMqtt p a).1.currentState.map
        PhynDeviceState.product_code
      = a.currentState.map PhynDeviceState.product_code
  ∧ (PPAccessory.updateFromMqtt p a).1.currentState.map
        PhynDeviceState.pressure1
      = a.currentState.map PhynDeviceState.pressure1
  ∧ (PPAccessory.updateFromMqtt p a).1.currentState.map
        PhynDeviceState.pressure2
      = a.currentState.map PhynDeviceState.pressure2
  ∧ (PPAccessory.updateFromMqtt p a).1.currentState.map
        PhynDeviceState.temperature1
      = a.currentState.map PhynDeviceState.temperature1
  ∧ (PPAccessory.updateFromMqtt p a).1.currentState.map
        PhynDeviceState.temperature2
      = a.currentState.map PhynDeviceState.temperature2 := by
  have hkey := updateFromMqtt_currentState p a
  refine ⟨by simp [PPAccessory.updateFromState], ?_, ?_, ?_, ?_, ?_, ?_, ?_,
    ?_, ?_, ?_, ?_, ?_, ?_, ?_⟩
  · intro hsv
    rw [hkey, hsv]
    cases a.currentState <;> simp
  · intro hfl
    rw [hkey, hfl]
    cases a.currentState <;> simp
  all_goals rw [hkey]; cases a.currentState <;> simp

theorem c1_merge_frame_witness :
    (⟨none, none, none, none, none, none⟩ :
        PhynMqttPayload).sov_state = none
  ∧ (⟨none, none, none, none, none, none⟩ :
        PhynMqttPayload).flow = none
  ∧ ((PPAccessory.updateFromState
        ⟨none, some ⟨"Open"⟩, none, none, none, none, none, none, none, none,
          none, none, none, none⟩
        ⟨some ⟨none, none, some ⟨some 5, none, none⟩, none, none, none, none,
          none, none, none, none, none, none, none⟩⟩).1.currentState
      = some ⟨none, some ⟨"Open"⟩, none, none, none, none, none, none, none,
          none, none, none, none, none⟩)
  ∧ ((PPAccessory.updateFromMqtt
        ⟨none, none, none, none, none, none⟩
        ⟨some ⟨none, none, some ⟨some 5, none, none⟩, none, none, none, none,
          none, none, none, none, none, none, none⟩⟩).1.currentState.map
      PhynDeviceState.flow
      = (⟨some ⟨none, none, some ⟨some 5, none, none⟩, none, none, none, none,
          none, none, none, none, none, none, none⟩⟩ :
            PPState).currentState.map PhynDeviceState.flow) := by
  have h := c1_merge_frame
    ⟨none, none, none, none, none, none⟩
    ⟨some ⟨none, none, some ⟨some 5, none, none⟩, none, none, none, none,
      none, none, none, none, none, none, none⟩⟩
    ⟨none, some ⟨"Open"⟩, none, none, none, none, none, none, none, none,
      none, none, none, none⟩
  exact ⟨rfl, rfl, h.1, h.2.2.1 rfl⟩

end Phyn
